import Mathlib

/-!
Shallow embedding of the KrishiAI / FarmWise backend (src/backend/server.py)
for checking the natural-language specification against the code.

Modelling conventions:
* Mongo documents are modelled by the inductive `MValue` (strings, datetimes,
  numbers, nested maps).  A datetime instant is an abstract point in time,
  modelled as a `Nat`; the pair `isoformat` / `fromisoformat` models the Python
  functions `datetime.isoformat` / `datetime.fromisoformat`: an injective textual
  encoding of instants and a one-sided inverse of it, failing on strings that
  are not the encoding of an instant.
* A handler that raises `HTTPException(status, detail)` is modelled as an
  `Except HTTPError` value; returning `Except.error` with no new state models
  the fact that the exception aborts the handler before any later effect.
-/

/-- A dynamically typed Mongo/JSON value, as manipulated by
`prepare_for_mongo` and `parse_from_mongo` in server.py. -/
inductive MValue where
  | str : String → MValue
  | dt : Nat → MValue
  | num : Int → MValue
  | dict : List (String × MValue) → MValue

/-- Python `isinstance(value, str)` on an `MValue`. -/
def MValue.isStr : MValue → Bool
  | .str _ => true
  | _ => false

/-- Python `isinstance(value, datetime)` on an `MValue`. -/
def MValue.isDt : MValue → Bool
  | .dt _ => true
  | _ => false

/-- Python `isinstance(value, dict)` on an `MValue`. -/
def MValue.isDict : MValue → Bool
  | .dict _ => true
  | _ => false

/-- The decimal digit character for `d` (`d < 10`). -/
def digitChar (d : Nat) : Char := Char.ofNat (48 + d)

/-- Decimal digit characters of `n`, most significant first. -/
def natChars (n : Nat) : List Char :=
  if h : n < 10 then [digitChar n]
  else natChars (n / 10) ++ [digitChar (n % 10)]
decreasing_by
  exact Nat.div_lt_self (Nat.lt_of_lt_of_le (by norm_num) (Nat.le_of_not_lt h)) (by norm_num)

/-- Model of `datetime.isoformat`: the textual encoding of an instant. -/
def isoformat (n : Nat) : String := String.mk (natChars n)

/-- Numeric value of a decimal digit character, `none` for other characters. -/
def charDigit (c : Char) : Option Nat :=
  if 48 ≤ c.toNat ∧ c.toNat ≤ 57 then some (c.toNat - 48) else none

/-- Left-to-right decimal parser with accumulator. -/
def parseDigits (acc : Nat) : List Char → Option Nat
  | [] => some acc
  | c :: cs =>
    match charDigit c with
    | some d => parseDigits (acc * 10 + d) cs
    | none => none

/-- Model of `datetime.fromisoformat`: recovers the instant encoded by
`isoformat`, and fails (raises `ValueError`, modelled as `none`) on a string
that does not encode an instant. -/
def fromisoformat (s : String) : Option Nat :=
  match s.data with
  | [] => none
  | cs => parseDigits 0 cs

/-- The accumulator update performed by reading the digits of `n`. -/
def pushNat (acc n : Nat) : Nat :=
  if h : n < 10 then acc * 10 + n
  else pushNat acc (n / 10) * 10 + n % 10
decreasing_by
  exact Nat.div_lt_self (Nat.lt_of_lt_of_le (by norm_num) (Nat.le_of_not_lt h)) (by norm_num)

theorem charDigit_digitChar (d : Nat) (h : d < 10) : charDigit (digitChar d) = some d := by
  interval_cases d <;> decide

theorem parseDigits_natChars_append (n : Nat) :
    ∀ acc cs, parseDigits acc (natChars n ++ cs) = parseDigits (pushNat acc n) cs := by
  induction n using Nat.strong_induction_on with
  | _ n ih =>
    intro acc cs
    by_cases h : n < 10
    · rw [natChars, pushNat]
      simp only [h, dite_true, List.cons_append, List.nil_append, parseDigits,
        charDigit_digitChar n h]
    · rw [natChars, pushNat]
      simp only [h, dite_false, List.append_assoc, List.cons_append, List.nil_append]
      have hlt : n / 10 < n :=
        Nat.div_lt_self (Nat.lt_of_lt_of_le (by norm_num) (Nat.le_of_not_lt h)) (by norm_num)
      rw [ih (n / 10) hlt]
      simp only [parseDigits, charDigit_digitChar (n % 10) (Nat.mod_lt n (by norm_num))]

theorem pushNat_zero (n : Nat) : pushNat 0 n = n := by
  induction n using Nat.strong_induction_on with
  | _ n ih =>
    by_cases h : n < 10
    · rw [pushNat]; simp [h]
    · rw [pushNat]
      have hlt : n / 10 < n :=
        Nat.div_lt_self (Nat.lt_of_lt_of_le (by norm_num) (Nat.le_of_not_lt h)) (by norm_num)
      simp only [h, dite_false, ih (n / 10) hlt]
      omega

theorem natChars_ne_nil (n : Nat) : natChars n ≠ [] := by
  rw [natChars]
  by_cases h : n < 10 <;> simp [h]

/-- The parser `fromisoformat` inverts `isoformat`. -/
theorem fromisoformat_isoformat (n : Nat) : fromisoformat (isoformat n) = some n := by
  have h : fromisoformat (isoformat n) = parseDigits 0 (natChars n) := by
    rw [isoformat, fromisoformat]
    rcases hc : natChars n with _ | ⟨c, cs⟩
    · exact absurd hc (natChars_ne_nil n)
    · rfl
  rw [h, ← List.append_nil (natChars n), parseDigits_natChars_append, pushNat_zero]
  rfl

mutual

/-- server.py 116-124, `prepare_for_mongo(data)`: on a dict, convert every
datetime value to its ISO string and recurse into every dict value; any
other input is returned unchanged. -/
def prepare_for_mongo : MValue → MValue
  | .dict fields => .dict (prepareFields fields)
  | data => data

/-- The per-field loop body of `prepare_for_mongo` (the `for key, value in
data.items()` loop): `isinstance(value, datetime)` → `value.isoformat()`;
`isinstance(value, dict)` → recurse; otherwise keep the value. -/
def prepareFields : List (String × MValue) → List (String × MValue)
  | [] => []
  | (key, .dt d) :: rest => (key, .str (isoformat d)) :: prepareFields rest
  | (key, .dict f) :: rest => (key, .dict (prepareFields f)) :: prepareFields rest
  | (key, value) :: rest => (key, value) :: prepareFields rest

end

/-- Python `str.endswith(suffix)`, modelled over the character list. -/
def pyEndsWith (s suffix : String) : Bool := suffix.data.isSuffixOf s.data

/-- The `try: item[key] = datetime.fromisoformat(value) except: pass` body of
`parse_from_mongo`: on a string, `fromisoformat` may fail with `ValueError`;
on any non-string it fails with `TypeError`; both are swallowed. -/
def tryFromisoformat : MValue → Option Nat
  | .str s => fromisoformat s
  | _ => none

/-- The per-field body of `parse_from_mongo`, including the exact condition
from the source, `key.endswith("_at") or key.endswith("_date") and
isinstance(value, str)` (Python precedence: `or` binds looser than `and`,
exactly as the Lean operators `||` and `&&`). -/
def parseField (key : String) (value : MValue) : MValue :=
  if pyEndsWith key "_at" || pyEndsWith key "_date" && value.isStr then
    match tryFromisoformat value with
    | some d => .dt d
    | none => value
  else value

/-- server.py 126-135, `parse_from_mongo(item)`: on a dict, rewrite each
field by `parseField`; it does NOT recurse into nested dict values. Any
non-dict input is returned unchanged. -/
def parse_from_mongo : MValue → MValue
  | .dict fields => .dict (fields.map (fun kv => (kv.1, parseField kv.1 kv.2)))
  | item => item

/-- The boolean guard of the source, read with the parenthesisation used by
the claim. -/
theorem parseField_eq (key : String) (value : MValue) :
    parseField key value =
      if pyEndsWith key "_at" = true ∨ (pyEndsWith key "_date" = true ∧ value.isStr = true) then
        match tryFromisoformat value with
        | some d => MValue.dt d
        | none => value
      else value := by
  simp only [parseField, Bool.or_eq_true, Bool.and_eq_true]

/-- C1: on every dict, `parse_from_mongo` attempts datetime parsing on a
field exactly when its key ends with `"_at"` (whatever the value is), or its
key ends with `"_date"` and its value is a string; when the attempt fails
(`tryFromisoformat` returns `none`) the original value is kept, and the
function is total, so no exception escapes. -/
theorem C1_parse_from_mongo_policy (fields : List (String × MValue)) :
    parse_from_mongo (.dict fields) = .dict (fields.map (fun kv =>
      (kv.1,
        if pyEndsWith kv.1 "_at" = true ∨ (pyEndsWith kv.1 "_date" = true ∧ kv.2.isStr = true) then
          match tryFromisoformat kv.2 with
          | some d => MValue.dt d
          | none => kv.2
        else kv.2))) := by
  simp only [parse_from_mongo, parseField_eq]

/-- The value transformation applied by one iteration of the
`prepare_for_mongo` loop. -/
def prepareValue : MValue → MValue
  | .dt d => .str (isoformat d)
  | .dict f => .dict (prepareFields f)
  | v => v

theorem prepareFields_cons (key : String) (v : MValue) (rest : List (String × MValue)) :
    prepareFields ((key, v) :: rest) = (key, prepareValue v) :: prepareFields rest := by
  cases v <;> simp [prepareFields, prepareValue]

theorem prepareFields_getElem? (fields : List (String × MValue)) (i : Nat) :
    (prepareFields fields)[i]? = (fields[i]?).map (fun kv => (kv.1, prepareValue kv.2)) := by
  induction fields generalizing i with
  | nil => simp [prepareFields]
  | cons kv rest ih =>
    rcases kv with ⟨k, v⟩
    rw [prepareFields_cons]
    cases i with
    | zero => simp
    | succ n => simpa using ih n

/-- C4 (counterexample): the write-then-read round trip does NOT restore a
datetime sitting inside a nested map — `prepare_for_mongo` recurses into
nested dicts but `parse_from_mongo` does not, so the nested `created_at`
stays a string. -/
theorem C4_nested_counterexample :
    parse_from_mongo (prepare_for_mongo
        (MValue.dict [("meta", MValue.dict [("created_at", MValue.dt 0)])]))
      ≠ MValue.dict [("meta", MValue.dict [("created_at", MValue.dt 0)])] := by
  have hprep : prepare_for_mongo (MValue.dict [("meta", MValue.dict [("created_at", MValue.dt 0)])])
      = MValue.dict [("meta", MValue.dict [("created_at", MValue.str (isoformat 0))])] := by
    simp [prepare_for_mongo, prepareFields]
  have hmeta1 : pyEndsWith "meta" "_at" = false := by decide
  have hmeta2 : pyEndsWith "meta" "_date" = false := by decide
  have hparse : parse_from_mongo
        (MValue.dict [("meta", MValue.dict [("created_at", MValue.str (isoformat 0))])])
      = MValue.dict [("meta", MValue.dict [("created_at", MValue.str (isoformat 0))])] := by
    simp [parse_from_mongo, parseField, hmeta1, hmeta2]
  rw [hprep, hparse]
  intro h
  simp at h

/-- C4 (amended to top level): for every record, a datetime value whose key
ends with `"_at"` sitting at the TOP level of the record survives the
`prepare_for_mongo` then `parse_from_mongo` round trip unchanged (same key,
same instant, same position). -/
theorem C4_roundtrip_toplevel (fields : List (String × MValue)) (i : Nat) (k : String) (d : Nat)
    (hf : fields[i]? = some (k, MValue.dt d)) (hk : pyEndsWith k "_at" = true) :
    ∃ fields2,
      parse_from_mongo (prepare_for_mongo (MValue.dict fields)) = MValue.dict fields2 ∧
        fields2[i]? = some (k, MValue.dt d) := by
  refine ⟨(prepareFields fields).map (fun kv => (kv.1, parseField kv.1 kv.2)), ?_, ?_⟩
  · simp [prepare_for_mongo, parse_from_mongo]
  · rw [List.getElem?_map, prepareFields_getElem?, hf]
    simp [prepareValue, parseField, hk, tryFromisoformat, fromisoformat_isoformat]

/-- Witness for `C4_roundtrip_toplevel` at a concrete one-field record. -/
theorem C4_roundtrip_toplevel_witness :
    ∃ fields2,
      parse_from_mongo (prepare_for_mongo (MValue.dict [("created_at", MValue.dt 5)]))
          = MValue.dict fields2 ∧
        fields2[0]? = some ("created_at", MValue.dt 5) :=
  C4_roundtrip_toplevel [("created_at", MValue.dt 5)] 0 "created_at" 5 rfl (by decide)

/-- Models `HTTPException(status_code, detail)` raised by a handler. -/
structure HTTPError where
  status : Nat
  detail : String
deriving DecidableEq

/-- A stored user document (the `User` pydantic model, server.py 52-60). -/
structure UserDoc where
  id : String
  name : String
  phone : Option String
  created_at : Nat
deriving DecidableEq

/-- A stored crop document (the `Crop` pydantic model, server.py 67-76). -/
structure CropDoc where
  id : String
  user_id : String
  name : String
  planting_date : Option Nat
  current_stage : String
  health_status : String
  last_activity : Option Nat
  created_at : Nat
deriving DecidableEq

/-- A stored activity document (the `Activity` pydantic model, 83-92). -/
structure ActivityDoc where
  id : String
  crop_id : String
  type : String
  description : String
  date : Nat
  quantity : Option String
  notes : Option String
  image_url : Option String
  created_at : Nat
deriving DecidableEq

/-- A stored advice document (the `AIAdvice` pydantic model, 102-107). -/
structure AdviceDoc where
  id : String
  crop_id : String
  advice_text : String
  created_at : Nat
deriving DecidableEq

/-- The four Mongo collections used by server.py (`db.users`, `db.crops`,
`db.activities`, `db.ai_advice`), each a sequence in insertion order. -/
structure DBState where
  users : List UserDoc
  crops : List CropDoc
  activities : List ActivityDoc
  ai_advice : List AdviceDoc
deriving DecidableEq

/-- Mongo `find_one(filter)`: first document matching the filter. -/
def findOne (l : List α) (p : α → Bool) : Option α := l.find? p

/-- Mongo `find(filter).to_list(...)`: all matching documents, stored order. -/
def findMany (l : List α) (p : α → Bool) : List α := l.filter p

/-- Mongo `insert_one`: appends the document. -/
def insertOne (l : List α) (x : α) : List α := l ++ [x]

/-- Mongo `delete_one(filter)`: removes the first matching document;
returns the new collection and `deleted_count`. -/
def deleteOne (l : List α) (p : α → Bool) : List α × Nat :=
  match l with
  | [] => ([], 0)
  | x :: xs =>
    if p x then (xs, 1)
    else
      let r := deleteOne xs p
      (x :: r.1, r.2)

/-- Mongo `delete_many(filter)`: removes every matching document; returns
the new collection and `deleted_count`. -/
def deleteMany (l : List α) (p : α → Bool) : List α × Nat :=
  (l.filter (fun x => !p x), (l.filter p).length)

/-- Mongo `update_one(filter, {"$set": ...})`: applies the update to the
first matching document; returns the new collection and `matched_count`. -/
def updateOne (l : List α) (p : α → Bool) (f : α → α) : List α × Nat :=
  match l with
  | [] => ([], 0)
  | x :: xs =>
    if p x then (f x :: xs, 1)
    else
      let r := updateOne xs p f
      (x :: r.1, r.2)

/-- server.py 137-141, `check_database_availability()`: raises
`HTTPException(503, "Database not available")` when the global `db` handle
is `None`; a handler that passes the check goes on to use `db`, so the model
hands the state back on success. -/
def check_database_availability (db : Option DBState) : Except HTTPError DBState :=
  match db with
  | none => Except.error ⟨503, "Database not available"⟩
  | some st => Except.ok st

/-- server.py 337-344, `POST /users`: build a `User` with generated id and
timestamp and insert it. -/
def create_user (db : Option DBState) (name : String) (phone : Option String)
    (genId : String) (now : Nat) : Except HTTPError (DBState × UserDoc) := do
  let st ← check_database_availability db
  let user : UserDoc := ⟨genId, name, phone, now⟩
  Except.ok ({ st with users := insertOne st.users user }, user)

/-- server.py 346-352, `GET /users/{user_id}`: find by id, 404 when absent. -/
def get_user (db : Option DBState) (uid : String) : Except HTTPError UserDoc := do
  let st ← check_database_availability db
  match findOne st.users (fun u => u.id == uid) with
  | none => Except.error ⟨404, "User not found"⟩
  | some u => Except.ok u

/-- server.py 354-364, `PUT /users/{user_id}`: `$set`-merge the request body
(plus server-stamped `updated_at`), modelled as the patch function `f`; 404
when no document matched; on success the document is read back (`find_one`),
which may in principle come back absent, hence the `Option`. -/
def update_user (db : Option DBState) (uid : String) (f : UserDoc → UserDoc) :
    Except HTTPError (DBState × Option UserDoc) := do
  let st ← check_database_availability db
  let r := updateOne st.users (fun u => u.id == uid) f
  if r.2 == 0 then Except.error ⟨404, "User not found"⟩
  else Except.ok ({ st with users := r.1 }, findOne r.1 (fun u => u.id == uid))

/-- server.py 367-380, `POST /crops`: `crop_data.pop("user_id", None)`; a
missing or falsy (empty) user id is a 400; otherwise build a `Crop` with
generated id, default stage/health, and insert it. -/
def create_crop (db : Option DBState) (user_id : Option String) (name : String)
    (planting_date : Option Nat) (genId : String) (now : Nat) :
    Except HTTPError (DBState × CropDoc) := do
  let st ← check_database_availability db
  match user_id with
  | none => Except.error ⟨400, "user_id is required"⟩
  | some uid =>
    if uid == "" then Except.error ⟨400, "user_id is required"⟩
    else
      let crop : CropDoc := ⟨genId, uid, name, planting_date, "planted", "good", none, now⟩
      Except.ok ({ st with crops := insertOne st.crops crop }, crop)

/-- server.py 382-386, `GET /crops/{user_id}`: all crops of a user. -/
def get_user_crops (db : Option DBState) (uid : String) :
    Except HTTPError (List CropDoc) := do
  let st ← check_database_availability db
  Except.ok (findMany st.crops (fun c => c.user_id == uid))

/-- server.py 388-394, `GET /crop/{crop_id}`: find by id, 404 when absent. -/
def get_crop (db : Option DBState) (cid : String) : Except HTTPError CropDoc := do
  let st ← check_database_availability db
  match findOne st.crops (fun c => c.id == cid) with
  | none => Except.error ⟨404, "Crop not found"⟩
  | some c => Except.ok c

/-- server.py 396-406, `PUT /crop/{crop_id}`: like `update_user`. -/
def update_crop (db : Option DBState) (cid : String) (f : CropDoc → CropDoc) :
    Except HTTPError (DBState × Option CropDoc) := do
  let st ← check_database_availability db
  let r := updateOne st.crops (fun c => c.id == cid) f
  if r.2 == 0 then Except.error ⟨404, "Crop not found"⟩
  else Except.ok ({ st with crops := r.1 }, findOne r.1 (fun c => c.id == cid))

/-- server.py 408-419, `DELETE /crop/{crop_id}`: delete the crop (404 when
`deleted_count == 0`, in which case the cascading deletes never run), then
delete every activity and every advice record with that `crop_id`. -/
def delete_crop (db : Option DBState) (cid : String) :
    Except HTTPError (DBState × String) := do
  let st ← check_database_availability db
  let r := deleteOne st.crops (fun c => c.id == cid)
  if r.2 == 0 then Except.error ⟨404, "Crop not found"⟩
  else
    let acts := deleteMany st.activities (fun a => a.crop_id == cid)
    let adv := deleteMany st.ai_advice (fun a => a.crop_id == cid)
    Except.ok ({ st with crops := r.1, activities := acts.1, ai_advice := adv.1 },
      "Crop deleted successfully")

/-- The request body of `POST /activities` (`ActivityCreate`, 94-100). -/
structure ActivityCreateIn where
  crop_id : String
  type : String
  description : String
  quantity : Option String
  notes : Option String
  image_url : Option String
deriving DecidableEq

/-- The `Activity` document built by `create_activity` from its request. -/
def activityOf (a : ActivityCreateIn) (genId : String) (now : Nat) : ActivityDoc :=
  ⟨genId, a.crop_id, a.type, a.description, now, a.quantity, a.notes, a.image_url, now⟩

/-- server.py 422-436, `POST /activities`: insert the activity, then
`update_one` the crop with a fresh `last_activity`; a zero-match update is
silently ignored; no foreign-key check anywhere. -/
def create_activity (db : Option DBState) (a : ActivityCreateIn) (genId : String)
    (now : Nat) : Except HTTPError (DBState × ActivityDoc) := do
  let st ← check_database_availability db
  let act := activityOf a genId now
  let acts := insertOne st.activities act
  let r := updateOne st.crops (fun c => c.id == a.crop_id)
    (fun c => { c with last_activity := some now })
  Except.ok ({ st with activities := acts, crops := r.1 }, act)

/-- Newest-first order on activities: `.sort("date", -1)`. -/
def byDateDesc (a b : ActivityDoc) : Prop := b.date ≤ a.date

instance : DecidableRel byDateDesc := fun a b => Nat.decLe b.date a.date

instance : IsTotal ActivityDoc byDateDesc := ⟨fun a b => Nat.le_total b.date a.date⟩

instance : IsTrans ActivityDoc byDateDesc := ⟨fun _ _ _ hab hbc => Nat.le_trans hbc hab⟩

/-- The model of Mongo `.sort("date", -1)`. -/
def sortByDateDesc (l : List ActivityDoc) : List ActivityDoc :=
  List.insertionSort byDateDesc l

/-- server.py 438-442, `GET /activities/{crop_id}`: all activities of the
crop, sorted by `date` descending. -/
def get_crop_activities (db : Option DBState) (cid : String) :
    Except HTTPError (List ActivityDoc) := do
  let st ← check_database_availability db
  Except.ok (sortByDateDesc (findMany st.activities (fun a => a.crop_id == cid)))

/-- The JSON body returned by `GET /health` (server.py 602-609). -/
structure HealthResp where
  status : String
  timestamp : String
  mongodb : String
  openai : String
deriving DecidableEq

/-- server.py 602-609, `GET /health`: always returns a 200 body; the
`mongodb` field reports `"connected"`/`"not configured"`. -/
def health_check (db : Option DBState) (openaiClient : Option Unit) (now : String) :
    HealthResp :=
  { status := "healthy", timestamp := now,
    mongodb := if db.isSome then "connected" else "not configured",
    openai := if openaiClient.isSome then "available" else "not configured" }

theorem deleteOne_of_forall_not {α : Type} (l : List α) (p : α → Bool)
    (h : ∀ x ∈ l, p x = false) : deleteOne l p = (l, 0) := by
  induction l with
  | nil => rfl
  | cons x xs ih =>
    simp only [deleteOne, h x (List.mem_cons_self x xs), Bool.false_eq_true, if_false]
    rw [ih (fun y hy => h y (List.mem_cons_of_mem x hy))]

theorem updateOne_of_forall_not {α : Type} (l : List α) (p : α → Bool) (f : α → α)
    (h : ∀ x ∈ l, p x = false) : updateOne l p f = (l, 0) := by
  induction l with
  | nil => rfl
  | cons x xs ih =>
    simp only [updateOne, h x (List.mem_cons_self x xs), Bool.false_eq_true, if_false]
    rw [ih (fun y hy => h y (List.mem_cons_of_mem x hy))]

theorem deleteOne_eq_filter {α : Type} (l : List α) (p : α → Bool)
    (h1 : (l.filter p).length ≤ 1) (hex : ∃ x ∈ l, p x = true) :
    deleteOne l p = (l.filter (fun x => !p x), 1) := by
  induction l with
  | nil =>
    rcases hex with ⟨x, hx, _⟩
    exact absurd hx (List.not_mem_nil x)
  | cons x xs ih =>
    cases hpx : p x with
    | true =>
      have hxs : xs.filter p = [] := by
        rw [List.filter_cons, if_pos hpx] at h1
        exact List.length_eq_zero.mp (Nat.le_zero.mp (Nat.le_of_succ_le_succ h1))
      have hall : ∀ y ∈ xs, p y = false := by
        intro y hy
        cases hpy : p y with
        | false => rfl
        | true =>
          have : y ∈ xs.filter p := List.mem_filter.mpr ⟨hy, hpy⟩
          rw [hxs] at this
          exact absurd this (List.not_mem_nil y)
      have hself : xs.filter (fun y => !p y) = xs :=
        List.filter_eq_self.mpr (fun y hy => by rw [hall y hy]; rfl)
      simp [deleteOne, hpx, List.filter_cons, hself]
    | false =>
      have hex2 : ∃ y ∈ xs, p y = true := by
        rcases hex with ⟨y, hy, hpy⟩
        rcases List.mem_cons.mp hy with rfl | hmem
        · rw [hpx] at hpy; exact absurd hpy (by simp)
        · exact ⟨y, hmem, hpy⟩
      have h1' : (xs.filter p).length ≤ 1 := by
        rw [List.filter_cons, if_neg (by simp [hpx])] at h1
        exact h1
      simp [deleteOne, hpx, List.filter_cons, ih h1' hex2]

theorem filter_beq_id_length_le_one (l : List CropDoc) (cid : String)
    (h : (l.map (fun c => c.id)).Nodup) :
    (l.filter (fun c => c.id == cid)).length ≤ 1 := by
  induction l with
  | nil => simp
  | cons x xs ih =>
    rw [List.map_cons, List.nodup_cons] at h
    rw [List.filter_cons]
    cases hpx : (x.id == cid) with
    | false => simpa using ih h.2
    | true =>
      have hx : x.id = cid := by simpa using hpx
      have hxs : xs.filter (fun c => c.id == cid) = [] := by
        rw [List.filter_eq_nil_iff]
        intro c hc hbc
        have : c.id = cid := by simpa using hbc
        exact h.1 (List.mem_map.mpr ⟨c, hc, by rw [this, hx]⟩)
      simp [hxs]

/-- C5: with the database handle absent, every persistence-dependent
endpoint (user create/get/update, crop create/list/get/update/delete,
activity create/list) fails with exactly
`HTTPException(503, "Database not available")` before touching any
collection (the error is produced from the `none` handle alone), while
`GET /health` still answers normally (a 200 body with `status: "healthy"`
and `mongodb: "not configured"`). -/
theorem C5_degraded_mode_503 :
    (∀ name phone gid now, create_user none name phone gid now
        = Except.error ⟨503, "Database not available"⟩)
    ∧ (∀ uid, get_user none uid = Except.error ⟨503, "Database not available"⟩)
    ∧ (∀ uid f, update_user none uid f = Except.error ⟨503, "Database not available"⟩)
    ∧ (∀ uido name pd gid now, create_crop none uido name pd gid now
        = Except.error ⟨503, "Database not available"⟩)
    ∧ (∀ uid, get_user_crops none uid = Except.error ⟨503, "Database not available"⟩)
    ∧ (∀ cid, get_crop none cid = Except.error ⟨503, "Database not available"⟩)
    ∧ (∀ cid f, update_crop none cid f = Except.error ⟨503, "Database not available"⟩)
    ∧ (∀ cid, delete_crop none cid = Except.error ⟨503, "Database not available"⟩)
    ∧ (∀ a gid now, create_activity none a gid now
        = Except.error ⟨503, "Database not available"⟩)
    ∧ (∀ cid, get_crop_activities none cid = Except.error ⟨503, "Database not available"⟩)
    ∧ (∀ oc now, (health_check none oc now).status = "healthy"
        ∧ (health_check none oc now).mongodb = "not configured") :=
  ⟨fun _ _ _ _ => rfl, fun _ => rfl, fun _ _ => rfl, fun _ _ _ _ _ => rfl,
   fun _ => rfl, fun _ => rfl, fun _ _ => rfl, fun _ => rfl, fun _ _ _ => rfl,
   fun _ => rfl, fun _ _ => ⟨rfl, rfl⟩⟩

/-- C2: when some stored crop has the requested id (and, per the documented
invariant, crop ids are unique), `delete_crop` succeeds and the resulting
state has that crop removed, every activity and every advice record with
that `crop_id` removed, and the other crops, activities, advice records and
all users unchanged; when no stored crop has the id, it fails with 404
`"Crop not found"` and the activities and advice collections are untouched
(the handler aborts before the cascading deletes). -/
theorem C2_delete_crop_cascade (st : DBState) (cid : String) :
    ((st.crops.map (fun c => c.id)).Nodup → (∃ c ∈ st.crops, c.id = cid) →
      delete_crop (some st) cid = Except.ok
        ({ users := st.users,
           crops := st.crops.filter (fun c => !(c.id == cid)),
           activities := st.activities.filter (fun a => !(a.crop_id == cid)),
           ai_advice := st.ai_advice.filter (fun a => !(a.crop_id == cid)) },
         "Crop deleted successfully"))
    ∧ ((∀ c ∈ st.crops, c.id ≠ cid) →
      delete_crop (some st) cid = Except.error ⟨404, "Crop not found"⟩) := by
  constructor
  · intro hnd hex
    have hlen := filter_beq_id_length_le_one st.crops cid hnd
    have hex2 : ∃ c ∈ st.crops, (c.id == cid) = true := by
      rcases hex with ⟨c, hc, hcid⟩
      exact ⟨c, hc, by simp [hcid]⟩
    have hdel := deleteOne_eq_filter st.crops (fun c => c.id == cid) hlen hex2
    simp [delete_crop, check_database_availability, Bind.bind, Except.bind, hdel, deleteMany]
  · intro hall
    have hfalse : ∀ c ∈ st.crops, (fun c => c.id == cid) c = false := by
      intro c hc
      simp [hall c hc]
    have hdel := deleteOne_of_forall_not st.crops _ hfalse
    simp [delete_crop, check_database_availability, Bind.bind, Except.bind, hdel]

/-- A concrete database for exercising the delete cascade. -/
def stWit : DBState :=
  { users := [⟨"u1", "Asha", none, 0⟩],
    crops := [⟨"c1", "u1", "Rice", none, "planted", "good", none, 0⟩,
              ⟨"c2", "u1", "Corn", none, "planted", "good", none, 0⟩],
    activities := [⟨"a1", "c1", "watering", "daily", 3, none, none, none, 3⟩,
                   ⟨"a2", "c2", "watering", "daily", 4, none, none, none, 4⟩],
    ai_advice := [⟨"v1", "c1", "water more", 5⟩] }

/-- Witness for `C2_delete_crop_cascade` on `stWit`. -/
theorem C2_delete_crop_cascade_witness :
    delete_crop (some stWit) "c1" = Except.ok
      ({ users := stWit.users,
         crops := stWit.crops.filter (fun c => !(c.id == "c1")),
         activities := stWit.activities.filter (fun a => !(a.crop_id == "c1")),
         ai_advice := stWit.ai_advice.filter (fun a => !(a.crop_id == "c1")) },
       "Crop deleted successfully")
    ∧ delete_crop (some stWit) "nope" = Except.error ⟨404, "Crop not found"⟩ :=
  ⟨(C2_delete_crop_cascade stWit "c1").1 (by decide) (by decide),
   (C2_delete_crop_cascade stWit "nope").2 (by decide)⟩

/-- C6: listing the activities of a crop returns exactly the stored activities
whose `crop_id` equals the given id (a permutation of the filtered
collection, so nothing else), every returned activity carries that id, and
the result is sorted by `date` descending (newest first). -/
theorem C6_activities_sorted (st : DBState) (cid : String) :
    ∃ res, get_crop_activities (some st) cid = Except.ok res
      ∧ List.Perm res (st.activities.filter (fun a => a.crop_id == cid))
      ∧ (∀ a ∈ res, a.crop_id = cid)
      ∧ List.Sorted byDateDesc res := by
  refine ⟨sortByDateDesc (findMany st.activities (fun a => a.crop_id == cid)), rfl, ?_, ?_, ?_⟩
  · exact List.perm_insertionSort byDateDesc _
  · intro a ha
    have hmem : a ∈ st.activities.filter (fun a => a.crop_id == cid) :=
      (List.perm_insertionSort byDateDesc _).subset ha
    have := (List.mem_filter.mp hmem).2
    simpa using this
  · exact List.sorted_insertionSort byDateDesc _

/-- C7: creating an activity for a `crop_id` that matches no stored crop
still succeeds: the activity is appended to the activities collection, the
`last_activity` update matches zero crops so the crops collection (and
everything else) is unchanged, and no error is raised. -/
theorem C7_create_activity_orphan (st : DBState) (a : ActivityCreateIn) (gid : String)
    (now : Nat) (h : ∀ c ∈ st.crops, c.id ≠ a.crop_id) :
    create_activity (some st) a gid now = Except.ok
      ({ st with activities := st.activities ++ [activityOf a gid now] },
       activityOf a gid now) := by
  have hfalse : ∀ c ∈ st.crops, (fun c : CropDoc => c.id == a.crop_id) c = false := by
    intro c hc
    simp [h c hc]
  have hupd := updateOne_of_forall_not st.crops _
    (fun c => { c with last_activity := some now }) hfalse
  simp [create_activity, check_database_availability, Bind.bind, Except.bind,
    insertOne, hupd]

/-- Witness for `C7_create_activity_orphan`: an activity for the absent crop
id `"cX"` against `stWit` (whose crops are `"c1"` and `"c2"`). -/
theorem C7_create_activity_orphan_witness :
    create_activity (some stWit) ⟨"cX", "watering", "daily", none, none, none⟩ "a9" 7
      = Except.ok
        ({ stWit with activities :=
            stWit.activities ++ [activityOf ⟨"cX", "watering", "daily", none, none, none⟩ "a9" 7] },
         activityOf ⟨"cX", "watering", "daily", none, none, none⟩ "a9" 7) :=
  C7_create_activity_orphan stWit ⟨"cX", "watering", "daily", none, none, none⟩ "a9" 7
    (by decide)

/-- Python `str.startswith(pre)`, modelled over the character list. -/
def pyStartsWith (s pre : String) : Bool := pre.data.isPrefixOf s.data

/-- Python truthiness of an optional string: `None` and `""` are falsy. -/
def isTruthyStr : Option String → Bool
  | none => false
  | some s => !(s == "")

/-- The outcome of one outbound third-party call: it either raises (network
error, timeout, non-2xx `raise_for_status`, malformed payload) or returns a
payload. -/
inductive Fetch (α : Type) where
  | raised : Fetch α
  | ok : α → Fetch α
deriving DecidableEq

/-- The fields server.py reads out of the WeatherAPI `current.json`
response (each `.get(...)`, hence optional). -/
structure WeatherJson where
  condition_text : Option String
  temp_c : Option Int
  humidity : Option Int
  wind_kph : Option Int
  localtime : Option String
  name : Option String
deriving DecidableEq

/-- The fixed-shape snapshot built by `get_weather_data` (server.py 164-171). -/
structure WeatherSnapshot where
  weather : Option String
  temperature : Option Int
  humidity : Option Int
  wind : Option Int
  datetime : String
  name : Option String
deriving DecidableEq

/-- server.py 143-174, `get_weather_data(lat, lon)`: with no configured key
it raises `ValueError` into its own `except`, and any error in the call or
the payload is caught; every failure path returns `None`. On success it
reshapes the payload; the `datetime` field falls back to the current time
when `location.localtime` is absent or empty (Python `or`). -/
def get_weather_data (key : Option String) (fetch : Fetch WeatherJson)
    (nowIso : String) : Option WeatherSnapshot :=
  if !(isTruthyStr key) then none
  else
    match fetch with
    | .raised => none
    | .ok data =>
      some { weather := data.condition_text,
             temperature := data.temp_c,
             humidity := data.humidity,
             wind := data.wind_kph,
             datetime := match data.localtime with
               | some s => if s == "" then nowIso else s
               | none => nowIso,
             name := data.name }

/-- server.py 176-215, `get_ai_advice(...)`: with no OpenAI client a fixed
unavailability string; when the model call raises, a canned fallback; the
prompt construction is not observable in the result and is omitted here. -/
def get_ai_advice (client : Option Unit) (modelResult : Fetch String) : String :=
  match client with
  | none => "AI features are currently unavailable. Please configure the OpenAI API key."
  | some _ =>
    match modelResult with
    | .raised => "Unable to generate AI advice at this time. Please consult with local agricultural experts."
    | .ok text => text

/-- The JSON body returned by `POST /ai/advice/{crop_name}`. -/
structure AdviceOut where
  advice : String
  weather : Option WeatherSnapshot
  note : String
deriving DecidableEq

/-- server.py 445-458, `get_crop_advice(crop_name)`: weather is fetched only
when a key is configured (`if WEATHERAPI_KEY:`), advice text comes from
`get_ai_advice`, and the handler always returns a 200 body (its `except`
arm would itself return a body, and neither callee raises). -/
def get_crop_advice (crop_name : String) (wkey : Option String)
    (wfetch : Fetch WeatherJson) (nowIso : String) (client : Option Unit)
    (modelResult : Fetch String) : AdviceOut :=
  let weather_data := if isTruthyStr wkey then get_weather_data wkey wfetch nowIso else none
  { advice := get_ai_advice client modelResult,
    weather := weather_data,
    note := "AI advice for " ++ crop_name }

/-- server.py 590-595, `GET /weather/{lat}/{lon}`: returns the snapshot when
`get_weather_data` produced one and otherwise raises
`HTTPException(404, "Weather data not available")`. -/
def get_weather (key : Option String) (fetch : Fetch WeatherJson) (nowIso : String) :
    Except HTTPError WeatherSnapshot :=
  match get_weather_data key fetch nowIso with
  | some w => Except.ok w
  | none => Except.error ⟨404, "Weather data not available"⟩

/-- C3 (counterexample): when the weather fetch fails (here: no configured
key, so the adapter returns null weather), `GET /weather/{lat}/{lon}` DOES
return an HTTP error status, namely 404 — contradicting the claim that no
handler outside chat/identify/transcribe surfaces an upstream failure as an
HTTP error. -/
theorem C3_weather_404_counterexample :
    get_weather none Fetch.raised "2025-01-01T00:00:00" =
      Except.error ⟨404, "Weather data not available"⟩ := rfl

/-- C3 (amended): every third-party failure is caught at the adapter
boundary and becomes a soft value — `get_weather_data` returns null weather
whenever the key is missing or the call raises, `get_ai_advice` returns
canned text when the client is missing or the call raises, and the advice
handler always returns a plain body built from those soft values — but the
weather handler maps a null snapshot to HTTP 404 (and only to 404), while a
present snapshot is returned as a 200 body. -/
theorem C3_adapter_soft_failures (k : Option String) (f : Fetch WeatherJson)
    (nowIso : String) (client : Option Unit) (mr : Fetch String) (crop_name : String) :
    (get_weather_data none f nowIso = none)
    ∧ (get_weather_data k Fetch.raised nowIso = none)
    ∧ (get_ai_advice none mr
        = "AI features are currently unavailable. Please configure the OpenAI API key.")
    ∧ (get_ai_advice (some ()) Fetch.raised
        = "Unable to generate AI advice at this time. Please consult with local agricultural experts.")
    ∧ (get_crop_advice crop_name k f nowIso client mr
        = { advice := get_ai_advice client mr,
            weather := if isTruthyStr k then get_weather_data k f nowIso else none,
            note := "AI advice for " ++ crop_name })
    ∧ (∀ w, get_weather_data k f nowIso = some w →
        get_weather k f nowIso = Except.ok w)
    ∧ (get_weather_data k f nowIso = none →
        get_weather k f nowIso = Except.error ⟨404, "Weather data not available"⟩) := by
  refine ⟨rfl, ?_, ?_, ?_, rfl, ?_, ?_⟩
  · cases k with
    | none => rfl
    | some s =>
      simp only [get_weather_data]
      cases hs : isTruthyStr (some s) <;> simp
  · cases mr <;> rfl
  · rfl
  · intro w hw
    simp [get_weather, hw]
  · intro hw
    simp [get_weather, hw]

/-- Witness for `C3_adapter_soft_failures` at concrete inputs. -/
theorem C3_adapter_soft_failures_witness :
    get_weather_data (some "k") Fetch.raised "now" = none
    ∧ get_weather (some "k") Fetch.raised "now"
        = Except.error ⟨404, "Weather data not available"⟩ :=
  ⟨(C3_adapter_soft_failures (some "k") Fetch.raised "now" none Fetch.raised "Rice").2.1,
   (C3_adapter_soft_failures (some "k") Fetch.raised "now" none Fetch.raised "Rice").2.2.2.2.2.2
     ((C3_adapter_soft_failures (some "k") Fetch.raised "now" none Fetch.raised "Rice").2.1)⟩

/-- An uploaded file as the handlers see it: declared content type, client
filename, and raw bytes. -/
structure UploadIn where
  content_type : String
  filename : String
  content : List Nat
deriving DecidableEq

/-- Python `Path(filename).suffix`: the final extension including the dot, `""`
when the name has no dot (simplified model, exact on ordinary names). -/
def pathSuffix (filename : String) : String :=
  let parts := filename.splitOn "."
  if parts.length ≤ 1 then "" else "." ++ parts.getLastD ""

/-- The body returned by `POST /upload-image`. -/
structure UploadResp where
  image_url : String
deriving DecidableEq

/-- server.py 260-281, `upload_image`: reject a content type that does not
start with `image/` with 400 BEFORE anything is written; otherwise store the
bytes under a random hex name keeping the extension and return the URL.
There is NO size check in this handler. -/
def upload_image (updir : List (String × List Nat)) (file : UploadIn) (genHex : String) :
    Except HTTPError (List (String × List Nat) × UploadResp) :=
  if !(pyStartsWith file.content_type "image/") then
    Except.error ⟨400, "Only image files are allowed."⟩
  else
    let filename := genHex ++ pathSuffix file.filename
    Except.ok (updir ++ [(filename, file.content)], ⟨"/uploads/" ++ filename⟩)

/-- server.py 217-252, `identify_crop_from_image`: fixed message with no
client; canned fallback when the vision call raises. -/
def identify_crop_from_image (client : Option Unit) (modelResult : Fetch String) : String :=
  match client with
  | none => "AI features are currently unavailable. Please configure the OpenAI API key."
  | some _ =>
    match modelResult with
    | .raised => "Unable to identify crop from image."
    | .ok text => text

/-- The body returned by `POST /upload-and-identify-crop`. -/
structure IdentifyResp where
  image_url : String
  crop_identification : String
  filename : String
  file_size : Nat
deriving DecidableEq

/-- server.py 283-335, `upload_and_identify_crop`: 400 on a non-image
content type; 400 `"File size too large. Maximum size is 10MB."` when the
bytes exceed 10 MB — both BEFORE the file is written; otherwise the file is
stored and identification runs (its own failures are soft, the stored URL is
returned regardless). -/
def upload_and_identify_crop (updir : List (String × List Nat)) (file : UploadIn)
    (genHex : String) (client : Option Unit) (modelResult : Fetch String) :
    Except HTTPError (List (String × List Nat) × IdentifyResp) :=
  if !(pyStartsWith file.content_type "image/") then
    Except.error ⟨400, "Only image files are allowed."⟩
  else if file.content.length > 10 * 1024 * 1024 then
    Except.error ⟨400, "File size too large. Maximum size is 10MB."⟩
  else
    let filename := genHex ++ pathSuffix file.filename
    Except.ok (updir ++ [(filename, file.content)],
      ⟨"/uploads/" ++ filename, identify_crop_from_image client modelResult,
       filename, file.content.length⟩)

/-- server.py 541-587, `transcribe_audio`: 503 with no client; 400 on a
declared content type that is truthy yet neither `audio/*`, `video/*` nor
`application/octet-stream`; 400 on empty bytes; 413 over 20 MB — all before
any model call; then `whisper-1` and, if that raises,
`gpt-4o-mini-transcribe`; an absent `.text` becomes `""`; if the fallback
also raises, the outer `except` maps it to a 500 (whose real detail
interpolates the exception text). -/
def transcribe_audio (client : Option Unit) (content_type : Option String)
    (content : List Nat) (primary fallback : Fetch (Option String)) :
    Except HTTPError String :=
  match client with
  | none =>
    Except.error ⟨503, "AI features are currently unavailable. Please configure the OpenAI API key."⟩
  | some _ =>
    let ct := content_type.getD ""
    if isTruthyStr content_type
        && !(pyStartsWith ct "audio/" || pyStartsWith ct "video/"
             || ct == "application/octet-stream") then
      Except.error ⟨400, "Unsupported file type: " ++ ct⟩
    else if content.length == 0 then
      Except.error ⟨400, "Received empty audio file"⟩
    else if content.length > 20 * 1024 * 1024 then
      Except.error ⟨413, "Audio file too large (max 20MB)"⟩
    else
      match primary with
      | .ok t => Except.ok (t.getD "")
      | .raised =>
        match fallback with
        | .ok t => Except.ok (t.getD "")
        | .raised => Except.error ⟨500, "Error transcribing audio"⟩

/-- C8: uploading a file whose declared content type does not start with
`image/` to the plain image-upload endpoint yields exactly
`HTTPException(400, "Only image files are allowed.")`; the handler aborts
on this first check, so no file is written (the error carries no new
upload-directory state). -/
theorem C8_upload_image_reject (updir : List (String × List Nat)) (file : UploadIn)
    (genHex : String) (h : pyStartsWith file.content_type "image/" = false) :
    upload_image updir file genHex = Except.error ⟨400, "Only image files are allowed."⟩ := by
  simp [upload_image, h]

/-- Witness for `C8_upload_image_reject`: a `text/plain` upload. -/
theorem C8_upload_image_reject_witness :
    upload_image [] ⟨"text/plain", "a.txt", [1, 2, 3]⟩ "deadbeef"
      = Except.error ⟨400, "Only image files are allowed."⟩ :=
  C8_upload_image_reject [] ⟨"text/plain", "a.txt", [1, 2, 3]⟩ "deadbeef" (by decide)

/-- C9 (counterexample): the plain image-upload endpoint accepts an image of
10 MB + 1 byte — it has no size check at all — so "every image upload larger
than 10 MB is rejected by the image-upload endpoints" is false. -/
theorem C9_upload_image_no_size_limit :
    (upload_image [] ⟨"image/png", "a.png", List.replicate (10 * 1024 * 1024 + 1) 0⟩
        "deadbeef").isOk = true
    ∧ (List.replicate (10 * 1024 * 1024 + 1) (0 : Nat)).length > 10 * 1024 * 1024 := by
  constructor
  · rfl
  · rw [List.length_replicate]
    omega

/-- C9 (amended): the size ceilings that DO exist: the combined
upload-and-identify endpoint rejects an image over 10 MB with HTTP 400
before storing it or calling the model, and the transcribe endpoint rejects
audio over 20 MB with HTTP 413 before any model call (the result does not
depend on the model outcomes); the plain upload endpoint enforces no size
ceiling. -/
theorem C9_size_ceilings (updir : List (String × List Nat)) (file : UploadIn)
    (genHex : String) (client : Option Unit) (mr : Fetch String)
    (content : List Nat) (ct : String) (primary fallback : Fetch (Option String)) :
    (pyStartsWith file.content_type "image/" = true →
      file.content.length > 10 * 1024 * 1024 →
      upload_and_identify_crop updir file genHex client mr
        = Except.error ⟨400, "File size too large. Maximum size is 10MB."⟩)
    ∧ (pyStartsWith ct "audio/" = true → content.length > 20 * 1024 * 1024 →
      transcribe_audio (some ()) (some ct) content primary fallback
        = Except.error ⟨413, "Audio file too large (max 20MB)"⟩) := by
  constructor
  · intro hct hlen
    simp [upload_and_identify_crop, hct, hlen]
  · intro hct hlen
    have hne : content.length ≠ 0 := by omega
    simp [transcribe_audio, hct, hlen, hne, Option.getD]

/-- Witness for `C9_size_ceilings` at concrete oversize uploads. -/
theorem C9_size_ceilings_witness :
    upload_and_identify_crop []
        ⟨"image/png", "a.png", List.replicate (10 * 1024 * 1024 + 1) 0⟩
        "deadbeef" none Fetch.raised
      = Except.error ⟨400, "File size too large. Maximum size is 10MB."⟩
    ∧ transcribe_audio (some ()) (some "audio/webm")
        (List.replicate (20 * 1024 * 1024 + 1) 0) Fetch.raised Fetch.raised
      = Except.error ⟨413, "Audio file too large (max 20MB)"⟩ :=
  ⟨(C9_size_ceilings [] ⟨"image/png", "a.png", List.replicate (10 * 1024 * 1024 + 1) 0⟩
      "deadbeef" none Fetch.raised (List.replicate (20 * 1024 * 1024 + 1) 0)
      "audio/webm" Fetch.raised Fetch.raised).1
      (by decide) (by rw [List.length_replicate]; omega),
   (C9_size_ceilings [] ⟨"image/png", "a.png", List.replicate (10 * 1024 * 1024 + 1) 0⟩
      "deadbeef" none Fetch.raised (List.replicate (20 * 1024 * 1024 + 1) 0)
      "audio/webm" Fetch.raised Fetch.raised).2
      (by decide) (by rw [List.length_replicate]; omega)⟩

/-- The body of `POST /ai/chat` (`ChatMessage`, server.py 109-113). -/
structure ChatIn where
  message : String
  crop_id : Option String
  image_base64 : Option String
  word_limit : Option Nat
deriving DecidableEq

/-- server.py 485-489: the crop context is looked up only when the request
carries a truthy `crop_id` AND the database handle is present
(`if chat_data.crop_id and db:`); a missing crop leaves it empty. -/
def chatCropContext : Option DBState → Option String → String
  | some st, some cid =>
    if cid == "" then ""
    else
      match findOne st.crops (fun c => c.id == cid) with
      | some crop =>
        "The farmer is asking about their " ++ crop.name ++ " crop, planted on "
          ++ (match crop.planting_date with
              | some d => isoformat d
              | none => "None")
          ++ ", current stage: " ++ crop.current_stage ++ "."
      | none => ""
  | _, _ => ""

/-- server.py 533: strip `*`, `**` and `#` from the model output and trim. -/
def cleanResponse (s : String) : String :=
  (((s.replace "*" "").replace "**" "").replace "#" "").trim

/-- server.py 478-539, `POST /ai/chat`: 503 only when the OpenAI client is
not configured; otherwise the prompt is built from the crop context (empty
when the database handle is absent) and the word limit (falsy → 50), the
model is called on it, its failure is a 500, and its output is cleaned and
returned. The model call is abstracted as a function of the prompt. -/
def chat_with_ai (client : Option Unit) (db : Option DBState) (chat : ChatIn)
    (model : String → Fetch String) : Except HTTPError String :=
  match client with
  | none =>
    Except.error ⟨503, "AI features are currently unavailable. Please configure the OpenAI API key."⟩
  | some _ =>
    let crop_context := chatCropContext db chat.crop_id
    let word_limit := match chat.word_limit with
      | some n => if n == 0 then 50 else n
      | none => 50
    let message_text := crop_context ++ "\n\nFarmer\x27s question: " ++ chat.message
      ++ "\n\nIMPORTANT: Respond in exactly " ++ toString word_limit
      ++ " words or less. Speak directly to the farmer using \x27you\x27. NO asterisks, bullet points, or special formatting."
    match model message_text with
    | .raised => Except.error ⟨500, "Error processing chat message"⟩
    | .ok text => Except.ok (cleanResponse text)

/-- C10: with the database handle absent, a chat request carrying a
`crop_id` never fails because of it: the crop lookup is skipped (the crop
context is empty), the response is identical to the same request without a
`crop_id`, a successful model call yields a 200 response, and the only
possible failure is the model-side 500 — never 503 or 404. -/
theorem C10_chat_without_db (chat : ChatIn) (cid : String)
    (model : String → Fetch String) (h : chat.crop_id = some cid) :
    chatCropContext none chat.crop_id = ""
    ∧ chat_with_ai (some ()) none chat model
        = chat_with_ai (some ()) none { chat with crop_id := none } model
    ∧ (∀ t, (∀ s, model s = Fetch.ok t) →
        chat_with_ai (some ()) none chat model = Except.ok (cleanResponse t))
    ∧ (∀ e, chat_with_ai (some ()) none chat model = Except.error e →
        e = ⟨500, "Error processing chat message"⟩) := by
  refine ⟨by rw [h]; rfl, rfl, ?_, ?_⟩
  · intro t hmodel
    simp [chat_with_ai, hmodel]
  · intro e he
    simp only [chat_with_ai] at he
    split at he
    · injection he with h2
      exact h2.symm
    · exact absurd he (by simp)

/-- Witness for `C10_chat_without_db`: a concrete chat request with a
`crop_id` succeeds with no database. -/
theorem C10_chat_without_db_witness :
    chat_with_ai (some ()) none ⟨"hi", some "c1", none, none⟩ (fun _ => Fetch.ok "sure")
      = Except.ok (cleanResponse "sure") :=
  (C10_chat_without_db ⟨"hi", some "c1", none, none⟩ "c1" (fun _ => Fetch.ok "sure")
    rfl).2.2.1 "sure" (fun _ => rfl)
